import Mathlib

/-!
Verification development for the UringForStratoVirt micro-VM core.

The definitions below are a shallow embedding of the Rust sources:
  src/device_model/src/micro_vm/mod.rs   (machine lifecycle, RAM layout, port I/O, netdev_add)
  src/boot_loader/src/x86_64/bootparam.rs (real-mode kernel header, zero page, E820 table)
  src/machine_manager/src/qmp/mod.rs     (QMP response shape and command dispatch)

Machine integers are modelled as Nat (overflow/underflow is commented where the
source guards it); Rust panics are modelled as Option.none; the few data types
that live in repository files outside this slice (the KvmVmState enum, the QMP
schema command list, the StatusInfo default) are modelled from the spec and
carry a doc comment saying so.
-/

namespace LightMachine

/-- Modelled from the spec: the global VM state machine states
(section 4.4, Created, Running, Paused, Shutdown). The enum itself is declared
in machine_manager::machine which is outside the source slice; all four
variants appear literally in src/device_model/src/micro_vm/mod.rs. -/
inductive KvmVmState where
  | Created
  | Running
  | Paused
  | Shutdown
deriving DecidableEq, Fintype, Repr

/-- The lifecycle-relevant portion of a LightMachine value: the state cell,
the number of live entries in the cpus Vec (one per vCPU at construction,
zero after vm_destroy clears it, micro_vm/mod.rs line 528), and
cpu_topo.max_cpus, the loop bound every transition action uses when it
indexes the Vec. -/
structure MachineState where
  state : KvmVmState
  cpus : Nat
  max_cpus : Nat
deriving DecidableEq, Repr

/-- Embedding of LightMachine::vm_start (micro_vm/mod.rs lines 469-487)
over the lifecycle data: the loop for cpu_index in 0..max_cpus indexes
cpus[cpu_index], which panics (none) when the Vec is shorter than max_cpus;
otherwise the state cell becomes Paused when the paused flag is set, Running
otherwise. The thread spawning and the barrier are outside the model. -/
def vm_start (paused : Bool) (s : MachineState) : Option MachineState :=
  if s.max_cpus ≤ s.cpus then
    some { s with
           state := if paused then KvmVmState.Paused
                    else KvmVmState.Running }
  else none

/-- Embedding of LightMachine::vm_pause (micro_vm/mod.rs lines 491-503)
over the lifecycle data: the loop for cpu_index in 0..max_cpus indexes
cpus[cpu_index], which panics (none) when the Vec is shorter than max_cpus;
otherwise the state cell becomes Paused. -/
def vm_pause (s : MachineState) : Option MachineState :=
  if s.max_cpus ≤ s.cpus then some { s with state := KvmVmState.Paused }
  else none

/-- Embedding of LightMachine::vm_resume (micro_vm/mod.rs lines 507-516)
over the lifecycle data: the loop for cpu_index in 0..max_cpus indexes
cpus[cpu_index], which panics (none) when the Vec is shorter than max_cpus;
otherwise the state cell becomes Running. -/
def vm_resume (s : MachineState) : Option MachineState :=
  if s.max_cpus ≤ s.cpus then some { s with state := KvmVmState.Running }
  else none

/-- Embedding of LightMachine::vm_destroy (micro_vm/mod.rs lines 520-531)
over the lifecycle data: the state cell is set to Shutdown first, then the
loop for cpu_index in 0..max_cpus indexes cpus[cpu_index] — on a machine
whose Vec was already cleared by an earlier destroy and that has at least
one configured vCPU this indexing panics (none) — and finally the Vec is
cleared. -/
def vm_destroy (s : MachineState) : Option MachineState :=
  let s1 := { s with state := KvmVmState.Shutdown }
  if s1.max_cpus ≤ s1.cpus then some { s1 with cpus := 0 }
  else none

/-- Embedding of LightMachine::notify_lifecycle (micro_vm/mod.rs lines
710-755) over the lifecycle data. A result some (s, b) is a normal return
with machine s and returned bool b; none is a panic escaping the call (the
out-of-bounds cpus indexing inside an action aborts before the power-button
write and the re-check). Result-typed action errors are only logged by the
source and the re-check then compares states; the per-vcpu operations
themselves are assumed not to error, so an action that does not panic moves
the state cell to its target and the re-check passes exactly as in the
source. -/
def notify_lifecycle (s : MachineState) (old new : KvmVmState) :
    Option (MachineState × Bool) :=
  if s.state ≠ old then some (s, false)
  else
    match old, new with
    | KvmVmState.Created, KvmVmState.Running =>
      match vm_start false s with
      | none => none
      | some s1 =>
        if s1.state = new then some (s1, true) else some (s1, false)
    | KvmVmState.Running, KvmVmState.Paused =>
      match vm_pause s with
      | none => none
      | some s1 =>
        if s1.state = new then some (s1, true) else some (s1, false)
    | KvmVmState.Paused, KvmVmState.Running =>
      match vm_resume s with
      | none => none
      | some s1 =>
        if s1.state = new then some (s1, true) else some (s1, false)
    | _, KvmVmState.Shutdown =>
      match vm_destroy s with
      | none => none
      | some s1 =>
        if s1.state = new then some (s1, true) else some (s1, false)
    | _, _ => some (s, false)

/-- Embedding of MachineLifecycle::pause for LightMachine (micro_vm/mod.rs
lines 675-684): notify_lifecycle from Running to Paused. -/
def pause (s : MachineState) : Option (MachineState × Bool) :=
  notify_lifecycle s KvmVmState.Running KvmVmState.Paused

/-- Embedding of MachineLifecycle::resume for LightMachine (micro_vm/mod.rs
lines 686-695): notify_lifecycle from Paused to Running. -/
def resume (s : MachineState) : Option (MachineState × Bool) :=
  notify_lifecycle s KvmVmState.Paused KvmVmState.Running

/-- Modelled from the spec: the edge set of the machine state machine exactly
as claim C1 lists it: Created to Running, Created to Paused, Running and
Paused in both directions, and Created or Running or Paused to Shutdown.
This is the claim-side definition used to compare the claim with the code. -/
def claimEdge (old new : KvmVmState) : Bool :=
  match old, new with
  | KvmVmState.Created, KvmVmState.Running => true
  | KvmVmState.Created, KvmVmState.Paused => true
  | KvmVmState.Running, KvmVmState.Paused => true
  | KvmVmState.Paused, KvmVmState.Running => true
  | KvmVmState.Created, KvmVmState.Shutdown => true
  | KvmVmState.Running, KvmVmState.Shutdown => true
  | KvmVmState.Paused, KvmVmState.Shutdown => true
  | _, _ => false

/-- Embedding of MEM_MAPPED_IO_SIZE (micro_vm/mod.rs line 99): 768 MiB. -/
def MEM_MAPPED_IO_SIZE : Nat := 768 * 2 ^ 20

/-- Embedding of MEM_MAPPED_IO_BASE on x86_64 (micro_vm/mod.rs line 97):
4 GiB minus MEM_MAPPED_IO_SIZE. -/
def MEM_MAPPED_IO_BASE : Nat := 2 ^ 32 - MEM_MAPPED_IO_SIZE

/-- Embedding of LightMachine::arch_ram_ranges on x86_64 (micro_vm/mod.rs
lines 332-350). All arithmetic is on u64 in the source; here Nat, which agrees
because the only subtraction is guarded by mem_size greater than gap_start and
gap_end equals 2 to the 32, far below 2 to the 64. -/
def arch_ram_ranges (mem_size : Nat) : List (Nat × Nat) :=
  let gap_start := MEM_MAPPED_IO_BASE
  let ranges := [(0, min gap_start mem_size)]
  if gap_start < mem_size then
    let gap_end := MEM_MAPPED_IO_BASE + MEM_MAPPED_IO_SIZE
    ranges ++ [(gap_end, mem_size - gap_start)]
  else ranges

end LightMachine

namespace bootparam

/-- Embedding of the RealModeKernelHeader struct
(boot_loader/src/x86_64/bootparam.rs lines 21-63). Fields are in source order;
u8/u16/u32/u64 values are modelled as Nat. -/
structure RealModeKernelHeader where
  setup_sects : Nat
  root_flags : Nat
  syssize : Nat
  ram_size : Nat
  vid_mode : Nat
  root_dev : Nat
  boot_flag : Nat
  jump : Nat
  header : Nat
  version : Nat
  realmode_swtch : Nat
  start_sys_seg : Nat
  kernel_version : Nat
  type_of_loader : Nat
  loadflags : Nat
  setup_move_size : Nat
  code32_start : Nat
  ramdisk_image : Nat
  ramdisk_size : Nat
  bootsect_kludge : Nat
  heap_end_ptr : Nat
  ext_loader_ver : Nat
  ext_loader_type : Nat
  cmdline_ptr : Nat
  initrd_addr_max : Nat
  kernel_alignment : Nat
  relocatable_kernel : Nat
  min_alignment : Nat
  xloadflags : Nat
  cmdline_size : Nat
  hardware_subarch : Nat
  hardware_subarch_data : Nat
  payload_offset : Nat
  payload_length : Nat
  setup_data : Nat
  pref_address : Nat
  init_size : Nat
  handover_offset : Nat
  kernel_info_offset : Nat
deriving DecidableEq, Repr

/-- Embedding of the derived Default for RealModeKernelHeader: every numeric
field is zero. -/
def RealModeKernelHeader.defaultHeader : RealModeKernelHeader :=
  { setup_sects := 0, root_flags := 0, syssize := 0, ram_size := 0
    vid_mode := 0, root_dev := 0, boot_flag := 0, jump := 0, header := 0
    version := 0, realmode_swtch := 0, start_sys_seg := 0, kernel_version := 0
    type_of_loader := 0, loadflags := 0, setup_move_size := 0, code32_start := 0
    ramdisk_image := 0, ramdisk_size := 0, bootsect_kludge := 0
    heap_end_ptr := 0, ext_loader_ver := 0, ext_loader_type := 0
    cmdline_ptr := 0, initrd_addr_max := 0, kernel_alignment := 0
    relocatable_kernel := 0, min_alignment := 0, xloadflags := 0
    cmdline_size := 0, hardware_subarch := 0, hardware_subarch_data := 0
    payload_offset := 0, payload_length := 0, setup_data := 0, pref_address := 0
    init_size := 0, handover_offset := 0, kernel_info_offset := 0 }

/-- Embedding of RealModeKernelHeader::new (bootparam.rs lines 65-78):
boot_flag 0xaa55, header magic HdrS, type_of_loader 0xff, the four arguments,
everything else from the all-zero default. -/
def RealModeKernelHeader.new (cmdline_ptr cmdline_size ramdisk_image
    ramdisk_size : Nat) : RealModeKernelHeader :=
  { RealModeKernelHeader.defaultHeader with
    boot_flag := 0xaa55
    header := 0x53726448
    type_of_loader := 0xff
    cmdline_ptr := cmdline_ptr
    cmdline_size := cmdline_size
    ramdisk_image := ramdisk_image
    ramdisk_size := ramdisk_size }

/-- Embedding of the E820Entry struct (bootparam.rs lines 80-86):
u64 addr, u64 size, u32 type. -/
structure E820Entry where
  addr : Nat
  size : Nat
  type_ : Nat
deriving DecidableEq, Repr

/-- Byte-layout description of E820Entry under repr(C, packed): the declared
fields with their sizes in source order. -/
def e820EntryFields : List (String × Nat) :=
  [(("addr"), 8), (("size"), 8), (("type_"), 4)]

/-- Sum of the declared field sizes of a packed record. -/
def fieldsSize (fields : List (String × Nat)) : Nat :=
  (fields.map Prod.snd).sum

/-- Byte-layout description of RealModeKernelHeader under repr(C, packed):
the declared fields with their sizes in source order (bootparam.rs
lines 21-63). -/
def realModeKernelHeaderFields : List (String × Nat) :=
  [(("setup_sects"), 1), (("root_flags"), 2), (("syssize"), 4),
   (("ram_size"), 2), (("vid_mode"), 2), (("root_dev"), 2),
   (("boot_flag"), 2), (("jump"), 2), (("header"), 4), (("version"), 2),
   (("realmode_swtch"), 4), (("start_sys_seg"), 2), (("kernel_version"), 2),
   (("type_of_loader"), 1), (("loadflags"), 1), (("setup_move_size"), 2),
   (("code32_start"), 4), (("ramdisk_image"), 4), (("ramdisk_size"), 4),
   (("bootsect_kludge"), 4), (("heap_end_ptr"), 2), (("ext_loader_ver"), 1),
   (("ext_loader_type"), 1), (("cmdline_ptr"), 4), (("initrd_addr_max"), 4),
   (("kernel_alignment"), 4), (("relocatable_kernel"), 1),
   (("min_alignment"), 1), (("xloadflags"), 2), (("cmdline_size"), 4),
   (("hardware_subarch"), 4), (("hardware_subarch_data"), 8),
   (("payload_offset"), 4), (("payload_length"), 4), (("setup_data"), 8),
   (("pref_address"), 8), (("init_size"), 4), (("handover_offset"), 4),
   (("kernel_info_offset"), 4)]

/-- Number of slots of the e820_table array in BootParams (bootparam.rs
line 120): 0x80. -/
def e820TableSlots : Nat := 0x80

/-- Byte-layout description of BootParams under repr(C, packed): the declared
fields with their sizes in source order (bootparam.rs lines 88-123). The
embedded kernel_header and e820_table sizes are the sums of their own
declared fields. -/
def bootParamsFields : List (String × Nat) :=
  [(("screen_info"), 0x40), (("apm_bios_info"), 0x14), (("pad1"), 4),
   (("tboot_addr"), 0x8), (("ist_info"), 0x10), (("pad2"), 0x10),
   (("hd0_info"), 0x10), (("hd1_info"), 0x10), (("sys_desc_table"), 0x10),
   (("olpc_ofw_header"), 0x10), (("ext_ramdisk_image"), 4),
   (("ext_ramdisk_size"), 4), (("ext_cmd_line_ptr"), 4), (("pad3"), 0x74),
   (("edid_info"), 0x80), (("efi_info"), 0x20), (("alt_mem_k"), 4),
   (("scratch"), 4), (("e820_entries"), 1), (("eddbuf_entries"), 1),
   (("edd_mbr_sig_buf_entries"), 1), (("kbd_status"), 1),
   (("secure_boot"), 1), (("pad4"), 2), (("sentinel"), 1), (("pad5"), 1),
   (("kernel_header"), fieldsSize realModeKernelHeaderFields),
   (("pad6"), 0x24), (("edd_mbr_sig_buffer"), 0x40),
   (("e820_table"), e820TableSlots * fieldsSize e820EntryFields),
   (("pad8"), 0x30), (("eddbuf"), 0x1ec)]

/-- Byte offset of a named field in a packed record: the sum of the sizes of
all fields declared before it. -/
def offsetOf : List (String × Nat) → String → Option Nat
  | [], _ => none
  | (n, sz) :: rest, target =>
    if n = target then some 0 else (offsetOf rest target).map (fun o => o + sz)

/-- Embedding of the BootParams fields that add_e820_entry touches
(bootparam.rs lines 109 and 120): the entry count (a u8 in the source) and
the 128-slot table, modelled as a list whose length is kept explicit in the
theorems. The remaining fields of the struct are raw padding and info bytes
that add_e820_entry neither reads nor writes. -/
structure BootParams where
  e820_entries : Nat
  e820_table : List E820Entry
deriving DecidableEq, Repr

/-- Embedding of BootParams::add_e820_entry (bootparam.rs lines 141-144).
The source indexes e820_table[e820_entries] with no bound check; Rust panics
when the index reaches the array length, modelled here as none. In bounds,
the entry is written at index e820_entries and the count is incremented
(the u8 increment cannot wrap because the index check bounds it by 128). -/
def BootParams.add_e820_entry (bp : BootParams) (addr size type_ : Nat) :
    Option BootParams :=
  if bp.e820_entries < bp.e820_table.length then
    some { e820_entries := bp.e820_entries + 1
           e820_table := bp.e820_table.set bp.e820_entries ⟨addr, size, type_⟩ }
  else none

/-- A freshly zeroed BootParams value, as BootParams::new together with the
zeroed Default produces before any entry is added: no entries, 128 zero
slots. -/
def freshBootParams : BootParams :=
  { e820_entries := 0, e820_table := List.replicate 128 ⟨0, 0, 0⟩ }

end bootparam

namespace qmp

/-- Minimal JSON value universe for the serialized wire shapes of
machine_manager/src/qmp/mod.rs. -/
inductive JValue where
  | null : JValue
  | jbool (b : Bool) : JValue
  | num (n : Int) : JValue
  | str (s : String) : JValue
  | arr (elems : List JValue) : JValue
  | obj (fields : List (String × JValue)) : JValue

/-- Embedding of ErrorMessage (qmp/mod.rs lines 253-258): the error class
name (serialized as the class key) and the description. -/
structure ErrorMessage where
  errorkind : String
  desc : String

/-- Embedding of the Response struct (qmp/mod.rs lines 195-203): an optional
return value, an optional error, an optional u32 id; each field is skipped
during serialization when absent. -/
structure Response where
  return_ : Option JValue
  error : Option ErrorMessage
  id : Option Nat

/-- Embedding of Response::create_empty_response (qmp/mod.rs lines 222-228):
return is the empty object, no error, no id. -/
def createEmptyResponse : Response :=
  { return_ := some (JValue.obj []), error := none, id := none }

/-- Embedding of Response::create_response (qmp/mod.rs lines 213-219). -/
def createResponse (v : JValue) (id : Option Nat) : Response :=
  { return_ := some v, error := none, id := id }

/-- Embedding of Response::create_error_response (qmp/mod.rs lines 236-245),
with the error class already rendered to its name and description. -/
def createErrorResponse (errorkind desc : String) (id : Option Nat) :
    Response :=
  { return_ := none, error := some { errorkind := errorkind, desc := desc }
    id := id }

/-- Embedding of Response::change_id (qmp/mod.rs lines 247-249). -/
def changeId (r : Response) (id : Option Nat) : Response :=
  { r with id := id }

/-- Serde serialization of Response as an ordered field list: each of the
return, error and id keys appears exactly when the option is present
(the skip_serializing_if attributes on qmp/mod.rs lines 197-202). -/
def responseFields (r : Response) : List (String × JValue) :=
  (match r.return_ with
   | some v => [(("return"), v)]
   | none => []) ++
  (match r.error with
   | some e =>
     [(("error"),
       JValue.obj [(("class"), JValue.str e.errorkind),
                   (("desc"), JValue.str e.desc)])]
   | none => []) ++
  (match r.id with
   | some i => [(("id"), JValue.num (Int.ofNat i))]
   | none => [])

/-- The serialized Response as a JSON object. -/
def serializeResponse (r : Response) : JValue :=
  JValue.obj (responseFields r)

/-- First binding of a key in a serialized JSON object field list. -/
def lookupField : List (String × JValue) → String → Option JValue
  | [], _ => none
  | (k, v) :: rest, key =>
    if k = key then some v else lookupField rest key

/-- Modelled from the spec: the RunState values the lifecycle claims mention.
The full enum lives in qmp_schema.rs outside the source slice; the spec
names the three serialized statuses running, paused and Created. -/
inductive RunState where
  | running
  | paused
  | Created
deriving DecidableEq, Repr

/-- Serialized form of a RunState value. -/
def RunState.toStr : RunState → String
  | RunState.running => ("running")
  | RunState.paused => ("paused")
  | RunState.Created => ("Created")

/-- Embedding of the StatusInfo schema struct used by query_status:
singlestep, running, status. -/
structure StatusInfo where
  singlestep : Bool
  running : Bool
  status : RunState
deriving DecidableEq, Repr

/-- Modelled from the spec: the derived Default value of StatusInfo, which
query_status returns for any state other than Running and Paused. The spec
says query-status before start yields running false and status Created. -/
def StatusInfo.defaultValue : StatusInfo :=
  { singlestep := false, running := false, status := RunState.Created }

end qmp

namespace LightMachine

/-- Embedding of the match inside DeviceInterface::query_status for
LightMachine (micro_vm/mod.rs lines 799-816), producing the StatusInfo that
the function wraps in a Response: Running and Paused have explicit arms, any
other state takes the default. -/
def query_status_info (s : KvmVmState) : qmp.StatusInfo :=
  match s with
  | KvmVmState.Running =>
    { singlestep := false, running := true, status := qmp.RunState.running }
  | KvmVmState.Paused =>
    { singlestep := false, running := true, status := qmp.RunState.paused }
  | _ => qmp.StatusInfo.defaultValue

/-- Embedding of DeviceInterface::query_status for LightMachine
(micro_vm/mod.rs line 815): the StatusInfo is serialized and wrapped with
create_response and id None. -/
def query_status (s : KvmVmState) : qmp.Response :=
  let info := query_status_info s
  qmp.createResponse
    (qmp.JValue.obj
      [(("running"), qmp.JValue.jbool info.running),
       (("singlestep"), qmp.JValue.jbool info.singlestep),
       (("status"), qmp.JValue.str info.status.toStr)])
    none

/-- Numeric value of a digit string, most significant digit first. -/
def digitsToNat (l : List Char) : Nat :=
  l.foldl (fun acc c => acc * 10 + (c.toNat - ('0').toNat)) 0

/-- Model of the Rust str::parse::<i32> used by netdev_add (micro_vm/mod.rs
line 1009): an optional single sign, then at least one ASCII digit and
nothing else, with the value required to fit in a 32-bit signed integer. -/
def parseI32 (s : String) : Option Int :=
  let cs := s.toList
  let signed : Bool × List Char :=
    match cs with
    | c :: rest =>
      if c = ('-') then (true, rest)
      else if c = ('+') then (false, rest)
      else (false, cs)
    | [] => (false, [])
  let neg := signed.1
  let digits := signed.2
  if digits.isEmpty then none
  else if digits.all Char.isDigit then
    let n := digitsToNat digits
    if neg then
      if n ≤ 2 ^ 31 then some (-(n : Int)) else none
    else
      if n ≤ 2 ^ 31 - 1 then some (n : Int) else none
  else none

/-- Splitting a character list at each colon, as Rust str::split produces
its segments (an empty input gives one empty segment, a trailing colon a
trailing empty segment). -/
def splitColon : List Char → List (List Char)
  | [] => [[]]
  | c :: rest =>
    let r := splitColon rest
    if c = (':') then [] :: r
    else
      match r with
      | h :: t => (c :: h) :: t
      | [] => [[c]]

/-- Embedding of the fds-name extraction in netdev_add (micro_vm/mod.rs
lines 996-1001): when the string contains a colon, the last colon-separated
component, otherwise the string itself. -/
def extractFdName (fds : String) : String :=
  if fds.toList.contains (':') then
    String.mk ((splitColon fds.toList).getLastD [])
  else fds

/-- Embedding of QmpChannel::get_fd (qmp/mod.rs lines 464-469): lookup of a
named file descriptor in the per-process table, here passed explicitly as an
association list standing for the BTreeMap. -/
def getFd (tbl : List (String × Int)) (name : String) : Option Int :=
  match tbl.find? (fun p => p.1 = name) with
  | some p => some p.2
  | none => none

/-- Embedding of the NetworkInterfaceConfig fields netdev_add fills
(micro_vm/mod.rs lines 986-993): the interface id, the host device name and
the optional tap file descriptor (the mac, vhost_type and vhost_fd fields
stay None throughout netdev_add and are omitted). -/
structure NetworkInterfaceConfig where
  iface_id : String
  host_dev_name : String
  tap_fd : Option Int
deriving DecidableEq, Repr

/-- Embedding of the body of DeviceInterface::netdev_add for LightMachine
before the bus call (micro_vm/mod.rs lines 985-1025): some config means the
function goes on to register it, none means it returned false because the
fds name is neither a registered descriptor nor parsable as an integer. -/
def netdev_add_cfg (tbl : List (String × Int)) (id : String)
    (if_name fds : Option String) : Option NetworkInterfaceConfig :=
  let config : NetworkInterfaceConfig :=
    { iface_id := id, host_dev_name := (""), tap_fd := none }
  match fds with
  | some fdsStr =>
    let netdev_fd := extractFdName fdsStr
    match getFd tbl netdev_fd with
    | some fd_num => some { config with tap_fd := some fd_num }
    | none =>
      match parseI32 netdev_fd with
      | some fd_num => some { config with tap_fd := some fd_num }
      | none => none
  | none =>
    match if_name with
    | some name => some { config with host_dev_name := name }
    | none => some config

/-- Embedding of DeviceInterface::netdev_add for LightMachine
(micro_vm/mod.rs lines 985-1030): the returned bool. The final
bus.add_replaceable_config call lives outside the slice; its is_ok result is
the busOk parameter. -/
def netdev_add (tbl : List (String × Int)) (busOk : Bool) (id : String)
    (if_name fds : Option String) : Bool :=
  match netdev_add_cfg tbl id if_name fds with
  | some _ => busOk
  | none => false

/-- Embedding of LightMachine::pio_in (micro_vm/mod.rs lines 760-772).
The io-address-space read is abstracted as an oracle from address and length
to the bytes read on success or none on failure. Port 0x61 short-circuits:
the source writes 0x20 into data[0] and returns true without touching
sys_io; on an empty buffer that indexing panics, modelled as none. For any
other port the read result of the oracle decides the returned bool. -/
def pio_in (ioRead : Nat → Nat → Option (List Nat)) (addr : Nat)
    (data : List Nat) : Option (List Nat × Bool) :=
  if addr = 0x61 then
    match data with
    | [] => none
    | _ :: rest => some (0x20 :: rest, true)
  else
    match ioRead addr data.length with
    | some bytes => some (bytes, true)
    | none => some (data, false)

end LightMachine

namespace qmp

/-- Modelled from the spec: the QmpCommand enumeration. The schema file
qmp_schema.rs is outside the source slice; the spec command table in section
4.5 lists exactly the commands stop, cont, quit, query-status, query-cpus,
query-hotpluggable-cpus, device_add, device_del, blockdev_add, netdev_add
and getfd, each carried with an optional integer id, and these are exactly
the variants qmp_command_exec matches on. Argument payloads keep only the
pieces the dispatch hands to the controller. -/
inductive QmpCommand where
  | stop (id : Option Nat)
  | cont (id : Option Nat)
  | quit (id : Option Nat)
  | query_status (id : Option Nat)
  | query_cpus (id : Option Nat)
  | query_hotpluggable_cpus (id : Option Nat)
  | device_add (devId driver : String) (addr : Option String)
      (lun : Option Nat) (id : Option Nat)
  | device_del (devId : String) (id : Option Nat)
  | blockdev_add (node_name filename : String) (read_only : Option Bool)
      (id : Option Nat)
  | netdev_add (devId : String) (if_name fds : Option String)
      (id : Option Nat)
  | getfd (fd_name : String) (id : Option Nat)

/-- The id field carried by a QmpCommand. -/
def QmpCommand.cmdId : QmpCommand → Option Nat
  | QmpCommand.stop id => id
  | QmpCommand.cont id => id
  | QmpCommand.quit id => id
  | QmpCommand.query_status id => id
  | QmpCommand.query_cpus id => id
  | QmpCommand.query_hotpluggable_cpus id => id
  | QmpCommand.device_add _ _ _ _ id => id
  | QmpCommand.device_del _ id => id
  | QmpCommand.blockdev_add _ _ _ id => id
  | QmpCommand.netdev_add _ _ _ id => id
  | QmpCommand.getfd _ id => id

/-- The MachineExternalInterface controller as qmp_command_exec consumes it:
one entry per method the dispatch calls, with Response-returning queries and
bool-returning mutators (whose results the dispatch macro discards). -/
structure Controller where
  pauseResult : Bool
  resumeResult : Bool
  destroyResult : Bool
  queryStatusResult : Response
  queryCpusResult : Response
  queryHotpluggableCpusResult : Response
  deviceAddFn : String → String → Option String → Option Nat → Bool
  deviceDelFn : String → Bool
  blockdevAddFn : String → String → Option Bool → Bool
  netdevAddFn : String → Option String → Option String → Bool
  getfdFn : String → Option Int → Response

/-- Embedding of qmp_command_exec (qmp/mod.rs lines 362-404). The response
starts as the empty response; the query commands replace it with the
controller result and getfd with the controller getfd result; the mutator
commands call the controller and discard the bool (the let bindings mirror
the qmp_command_match expansion, which drops the value); quit sets the
shutdown flag; finally change_id overwrites the response id with the id of
the incoming command. -/
def qmp_command_exec (ctl : Controller) (cmd : QmpCommand)
    (if_fd : Option Int) : Response × Bool :=
  match cmd with
  | QmpCommand.stop id =>
    let _ := ctl.pauseResult
    (changeId createEmptyResponse id, false)
  | QmpCommand.cont id =>
    let _ := ctl.resumeResult
    (changeId createEmptyResponse id, false)
  | QmpCommand.query_status id =>
    (changeId ctl.queryStatusResult id, false)
  | QmpCommand.query_cpus id =>
    (changeId ctl.queryCpusResult id, false)
  | QmpCommand.query_hotpluggable_cpus id =>
    (changeId ctl.queryHotpluggableCpusResult id, false)
  | QmpCommand.device_add devId driver addr lun id =>
    let _ := ctl.deviceAddFn devId driver addr lun
    (changeId createEmptyResponse id, false)
  | QmpCommand.device_del devId id =>
    let _ := ctl.deviceDelFn devId
    (changeId createEmptyResponse id, false)
  | QmpCommand.blockdev_add node_name filename read_only id =>
    let _ := ctl.blockdevAddFn node_name filename read_only
    (changeId createEmptyResponse id, false)
  | QmpCommand.netdev_add devId if_name fds id =>
    let _ := ctl.netdevAddFn devId if_name fds
    (changeId createEmptyResponse id, false)
  | QmpCommand.quit id =>
    let _ := ctl.destroyResult
    (changeId createEmptyResponse id, true)
  | QmpCommand.getfd fd_name id =>
    (changeId (ctl.getfdFn fd_name if_fd) id, false)

/-- A concrete controller wiring the netdev_add embedding over an empty fd
table (and an accepting bus) into the dispatch; the query entries carry the
responses a fresh Created machine produces and the mutators succeed. -/
def sampleController : Controller :=
  { pauseResult := true
    resumeResult := true
    destroyResult := true
    queryStatusResult := LightMachine.query_status LightMachine.KvmVmState.Created
    queryCpusResult := createResponse (JValue.arr []) none
    queryHotpluggableCpusResult := createResponse (JValue.arr []) none
    deviceAddFn := fun _ _ _ _ => true
    deviceDelFn := fun _ => true
    blockdevAddFn := fun _ _ _ => true
    netdevAddFn := LightMachine.netdev_add [] true
    getfdFn := fun _ fd =>
      match fd with
      | some _ => createEmptyResponse
      | none => createErrorResponse ("GenericError") ("Invalid SCM message") none }

end qmp

namespace LightMachine

/-- Claim C1 (counterexample): the claim says every transition that is not
an edge of the state machine is rejected, returning false; but on a machine
already shut down (state Shutdown, cpus Vec cleared to length zero, one
configured vCPU) the request Shutdown to Shutdown is not an edge, and
instead of returning false the source re-enters vm_destroy, whose loop
indexes cpus[0] on the cleared Vec and panics (none) before the
power-button write, so the call aborts without returning at all. -/
theorem C1_notify_lifecycle_counterexample :
    claimEdge KvmVmState.Shutdown KvmVmState.Shutdown = false ∧
    notify_lifecycle
        { state := KvmVmState.Shutdown, cpus := 0, max_cpus := 1 }
        KvmVmState.Shutdown KvmVmState.Shutdown
      = none := by decide

/-- Claim C1 (amended): notify_lifecycle(old, new) returns false and leaves
the machine unchanged when the current state differs from old, and it
returns false, leaving the machine unchanged, for every transition that is
not an edge of the claimed machine except Shutdown to Shutdown; a
Shutdown-to-Shutdown request on a machine already shut down (its cpus Vec
cleared and shorter than max_cpus) re-enters vm_destroy and panics on the
out-of-bounds cpus indexing instead of returning; consequently Shutdown is
terminal on such machines: no notify_lifecycle call starting from them
returns true. -/
theorem C1_notify_lifecycle_amended (s : MachineState)
    (old new : KvmVmState) :
    (s.state ≠ old → notify_lifecycle s old new = some (s, false)) ∧
    (claimEdge old new = false →
      ¬(old = KvmVmState.Shutdown ∧ new = KvmVmState.Shutdown) →
      notify_lifecycle s old new = some (s, false)) ∧
    (s.state = KvmVmState.Shutdown → s.cpus < s.max_cpus →
      old = KvmVmState.Shutdown → new = KvmVmState.Shutdown →
      notify_lifecycle s old new = none) ∧
    (s.state = KvmVmState.Shutdown → s.cpus < s.max_cpus →
      (notify_lifecycle s old new).map (fun r => r.2) ≠ some true) := by
  refine ⟨?_, ?_, ?_, ?_⟩
  · intro h
    rw [notify_lifecycle.eq_def, if_pos h]
  · intro hE hnot
    by_cases hs : s.state = old
    · cases old <;> cases new <;>
        first
          | exact absurd hE (by decide)
          | exact absurd (by decide) hnot
          | rw [notify_lifecycle.eq_def, if_neg (not_not_intro hs)]
    · rw [notify_lifecycle.eq_def, if_pos hs]
  · intro hshut hlt hold hnew
    subst hold
    subst hnew
    have hnle : ¬ s.max_cpus ≤ s.cpus := Nat.not_le.mpr hlt
    simp [notify_lifecycle, hshut, vm_destroy, hnle]
  · intro hshut hlt
    have hnle : ¬ s.max_cpus ≤ s.cpus := Nat.not_le.mpr hlt
    cases old <;> cases new <;>
      simp [notify_lifecycle, hshut, vm_destroy, hnle]

/-- Claim C1 (witness): the amended theorem applied at a concrete
mismatched pair: a single-vCPU Paused machine asked for the Running to
Paused transition is left untouched with a false result. -/
theorem C1_notify_lifecycle_witness :
    notify_lifecycle { state := KvmVmState.Paused, cpus := 1, max_cpus := 1 }
        KvmVmState.Running KvmVmState.Paused
      = some ({ state := KvmVmState.Paused, cpus := 1, max_cpus := 1 },
          false) :=
  (C1_notify_lifecycle_amended
    { state := KvmVmState.Paused, cpus := 1, max_cpus := 1 }
    KvmVmState.Running KvmVmState.Paused).1 (by decide)

/-- Claim C8: pause and resume compose to the identity on the machine
state: on a machine with its cpus Vec intact (one live entry per configured
vCPU), pause from Running then resume ends Running, and resume from Paused
then pause ends Paused; each individual transition returns true and no
panic occurs. -/
theorem C8_pause_resume_identity (n : Nat) :
    pause { state := KvmVmState.Running, cpus := n, max_cpus := n }
      = some ({ state := KvmVmState.Paused, cpus := n, max_cpus := n },
          true) ∧
    resume { state := KvmVmState.Paused, cpus := n, max_cpus := n }
      = some ({ state := KvmVmState.Running, cpus := n, max_cpus := n },
          true) ∧
    (pause { state := KvmVmState.Running, cpus := n, max_cpus := n }).bind
        (fun r => resume r.1)
      = some ({ state := KvmVmState.Running, cpus := n, max_cpus := n },
          true) ∧
    (resume { state := KvmVmState.Paused, cpus := n, max_cpus := n }).bind
        (fun r => pause r.1)
      = some ({ state := KvmVmState.Paused, cpus := n, max_cpus := n },
          true) := by
  have h1 : pause { state := KvmVmState.Running, cpus := n, max_cpus := n }
      = some ({ state := KvmVmState.Paused, cpus := n, max_cpus := n },
          true) := by
    simp [pause, notify_lifecycle, vm_pause]
  have h2 : resume { state := KvmVmState.Paused, cpus := n, max_cpus := n }
      = some ({ state := KvmVmState.Running, cpus := n, max_cpus := n },
          true) := by
    simp [resume, notify_lifecycle, vm_resume]
  refine ⟨h1, h2, ?_, ?_⟩
  · rw [h1]
    exact h2
  · rw [h2]
    exact h1

/-- Claim C2: for every memory size M (a u64 value), the sizes of the ranges
returned by arch_ram_ranges sum to exactly M; the result is the single range
from 0 of size min(gap_start, M) when M is at most gap_start, and exactly
the two ranges below the gap and from 4 GiB otherwise, so the sub-4-GiB MMIO
gap is never counted as RAM. -/
theorem C2_arch_ram_ranges (M : Nat) (_h : M < 2 ^ 64) :
    ((arch_ram_ranges M).map Prod.snd).sum = M ∧
    (M ≤ MEM_MAPPED_IO_BASE →
      arch_ram_ranges M = [(0, min MEM_MAPPED_IO_BASE M)]) ∧
    (MEM_MAPPED_IO_BASE < M →
      arch_ram_ranges M
        = [(0, MEM_MAPPED_IO_BASE), (2 ^ 32, M - MEM_MAPPED_IO_BASE)]) := by
  have hsum : MEM_MAPPED_IO_BASE + MEM_MAPPED_IO_SIZE = 2 ^ 32 := by
    norm_num [MEM_MAPPED_IO_BASE, MEM_MAPPED_IO_SIZE]
  by_cases hM : MEM_MAPPED_IO_BASE < M
  · have hmin : min MEM_MAPPED_IO_BASE M = MEM_MAPPED_IO_BASE :=
      Nat.min_eq_left (Nat.le_of_lt hM)
    have hr : arch_ram_ranges M
        = [(0, min MEM_MAPPED_IO_BASE M),
           (MEM_MAPPED_IO_BASE + MEM_MAPPED_IO_SIZE,
            M - MEM_MAPPED_IO_BASE)] := by
      rw [arch_ram_ranges, if_pos hM]
      rfl
    rw [hmin, hsum] at hr
    refine ⟨?_, ?_, ?_⟩
    · rw [hr, List.map_cons, List.map_cons, List.map_nil, List.sum_cons,
        List.sum_cons, List.sum_nil, Nat.add_zero]
      exact Nat.add_sub_cancel' (Nat.le_of_lt hM)
    · intro hle; exact absurd hM (Nat.not_lt.mpr hle)
    · intro _; exact hr
  · have hle : M ≤ MEM_MAPPED_IO_BASE := Nat.le_of_not_lt hM
    have hmin : min MEM_MAPPED_IO_BASE M = M := Nat.min_eq_right hle
    have hr : arch_ram_ranges M = [(0, min MEM_MAPPED_IO_BASE M)] := by
      rw [arch_ram_ranges, if_neg hM]
    refine ⟨?_, ?_, ?_⟩
    · rw [hr, hmin, List.map_cons, List.map_nil, List.sum_cons, List.sum_nil,
        Nat.add_zero]
    · intro _; exact hr
    · intro hgt; exact absurd hgt (Nat.not_lt.mpr hle)

/-- Claim C2 (witness): the theorem applied at the concrete memory size
4 GiB, which exceeds gap_start and yields the two-range layout. -/
theorem C2_arch_ram_ranges_witness :
    ((0x100000000 : Nat) < 2 ^ 64) ∧
    (((arch_ram_ranges 0x100000000).map Prod.snd).sum = 0x100000000 ∧
     (0x100000000 ≤ MEM_MAPPED_IO_BASE →
       arch_ram_ranges 0x100000000
         = [(0, min MEM_MAPPED_IO_BASE 0x100000000)]) ∧
     (MEM_MAPPED_IO_BASE < 0x100000000 →
       arch_ram_ranges 0x100000000
         = [(0, MEM_MAPPED_IO_BASE),
            (2 ^ 32, 0x100000000 - MEM_MAPPED_IO_BASE)])) :=
  ⟨by norm_num, C2_arch_ram_ranges 0x100000000 (by norm_num)⟩

end LightMachine

namespace bootparam

/-- Claim C3: in the packed BootParams record the byte offsets obtained by
summing the declared field sizes are exactly 0x1e8 for the single-byte
e820_entries, 0x1f1 for the embedded RealModeKernelHeader, and 0x2d0 for the
e820_table of 0x80 entries of 20 bytes each (the u64 addr, u64 size and u32
type fields), so consecutive entries lie 20 bytes apart. -/
theorem C3_boot_params_layout :
    offsetOf bootParamsFields ("e820_entries") = some 0x1e8 ∧
    offsetOf bootParamsFields ("kernel_header") = some 0x1f1 ∧
    offsetOf bootParamsFields ("e820_table") = some 0x2d0 ∧
    fieldsSize e820EntryFields = 20 ∧
    e820TableSlots = 0x80 := by decide

/-- Claim C4: RealModeKernelHeader::new returns a header whose boot_flag is
0xaa55, whose header magic is 0x53726448, whose type_of_loader is 0xff,
whose cmdline_ptr, cmdline_size, ramdisk_image and ramdisk_size equal the
arguments, and whose every other field is zero. -/
theorem C4_real_mode_kernel_header_new (cp cs ri rs : Nat) :
    RealModeKernelHeader.new cp cs ri rs =
      { setup_sects := 0, root_flags := 0, syssize := 0, ram_size := 0
        vid_mode := 0, root_dev := 0, boot_flag := 0xaa55, jump := 0
        header := 0x53726448, version := 0, realmode_swtch := 0
        start_sys_seg := 0, kernel_version := 0, type_of_loader := 0xff
        loadflags := 0, setup_move_size := 0, code32_start := 0
        ramdisk_image := ri, ramdisk_size := rs, bootsect_kludge := 0
        heap_end_ptr := 0, ext_loader_ver := 0, ext_loader_type := 0
        cmdline_ptr := cp, initrd_addr_max := 0, kernel_alignment := 0
        relocatable_kernel := 0, min_alignment := 0, xloadflags := 0
        cmdline_size := cs, hardware_subarch := 0, hardware_subarch_data := 0
        payload_offset := 0, payload_length := 0, setup_data := 0
        pref_address := 0, init_size := 0, handover_offset := 0
        kernel_info_offset := 0 } := rfl

/-- Helper for C9: writing inside the bounds of a list is read back at the
same index. -/
theorem get_of_set_lt {α : Type} (l : List α) (i : Nat) (x : α)
    (h : i < l.length) : (l.set i x).get? i = some x := by
  induction l generalizing i with
  | nil => exact absurd h (Nat.not_lt_zero i)
  | cons a t ih =>
    cases i with
    | zero => rfl
    | succ n =>
      have hn : n < t.length := Nat.lt_of_succ_lt_succ (by simpa using h)
      simpa using ih n hn

/-- Claim C9: add_e820_entry writes at index e820_entries of the 128-slot
table with no bound check; when e820_entries is below 128 the write is in
bounds, the new entry lands at that index and the count becomes one larger,
and when 128 entries are already present the out-of-bounds branch is
reached (modelled as none, the Rust panic). -/
theorem C9_add_e820_entry (bp : BootParams) (a s t : Nat)
    (h : bp.e820_table.length = 128) :
    (bp.e820_entries < 128 →
      BootParams.add_e820_entry bp a s t =
        some { e820_entries := bp.e820_entries + 1
               e820_table := bp.e820_table.set bp.e820_entries ⟨a, s, t⟩ }) ∧
    (bp.e820_entries < 128 →
      (bp.e820_table.set bp.e820_entries ⟨a, s, t⟩).get? bp.e820_entries
        = some ⟨a, s, t⟩) ∧
    (bp.e820_entries = 128 → BootParams.add_e820_entry bp a s t = none) := by
  refine ⟨?_, ?_, ?_⟩
  · intro hlt
    rw [BootParams.add_e820_entry, if_pos (by rw [h]; exact hlt)]
  · intro hlt
    exact get_of_set_lt bp.e820_table bp.e820_entries ⟨a, s, t⟩
      (by rw [h]; exact hlt)
  · intro heq
    rw [BootParams.add_e820_entry,
      if_neg (by rw [h, heq]; exact Nat.lt_irrefl 128)]

/-- Claim C9 (witness): the theorem applied to the freshly zeroed BootParams
with no entries yet; the added entry lands in slot 0 and the count becomes
one. -/
theorem C9_add_e820_entry_witness :
    freshBootParams.e820_table.length = 128 ∧
    ((freshBootParams.e820_entries < 128 →
      BootParams.add_e820_entry freshBootParams 1 2 3 =
        some { e820_entries := freshBootParams.e820_entries + 1
               e820_table :=
                 freshBootParams.e820_table.set freshBootParams.e820_entries
                   ⟨1, 2, 3⟩ }) ∧
     (freshBootParams.e820_entries < 128 →
      (freshBootParams.e820_table.set freshBootParams.e820_entries
          ⟨1, 2, 3⟩).get? freshBootParams.e820_entries = some ⟨1, 2, 3⟩) ∧
     (freshBootParams.e820_entries = 128 →
      BootParams.add_e820_entry freshBootParams 1 2 3 = none)) :=
  ⟨by simp [freshBootParams],
   C9_add_e820_entry freshBootParams 1 2 3 (by simp [freshBootParams])⟩

end bootparam

namespace qmp

/-- Helper for C5: looking a key up past a prefix whose keys all differ from
it skips the prefix. -/
theorem lookupField_append (key : String) (l1 l2 : List (String × JValue))
    (h : ∀ p ∈ l1, p.1 ≠ key) :
    lookupField (l1 ++ l2) key = lookupField l2 key := by
  induction l1 with
  | nil => rfl
  | cons p rest ih =>
    rcases p with ⟨k, v⟩
    have hk : k ≠ key := h (k, v) (List.mem_cons_self _ _)
    rw [List.cons_append, lookupField, if_neg hk]
    exact ih (fun q hq => h q (List.mem_cons_of_mem _ hq))

/-- Helper for C5: in the serialized Response the id key is bound exactly
when the id option is present, and to its numeric value. -/
theorem responseFields_id (r : Response) :
    lookupField (responseFields r) ("id")
      = r.id.map (fun n => JValue.num (Int.ofNat n)) := by
  rw [responseFields, List.append_assoc, lookupField_append, lookupField_append]
  · cases r.id with
    | none => rfl
    | some i => rfl
  · intro p hp
    cases he : r.error with
    | none => rw [he] at hp; exact absurd hp (List.not_mem_nil p)
    | some e =>
      rw [he] at hp
      rcases List.mem_singleton.mp hp with rfl
      exact (by decide : (("error" : String)) ≠ ("id"))
  · intro p hp
    cases hr : r.return_ with
    | none => rw [hr] at hp; exact absurd hp (List.not_mem_nil p)
    | some v =>
      rw [hr] at hp
      rcases List.mem_singleton.mp hp with rfl
      exact (by decide : (("return" : String)) ≠ ("id"))

/-- Claim C5: for every QMP command processed by qmp_command_exec, the id of
the emitted response equals the id of the incoming request, and the
serialized response binds the id key exactly when the request carried one
(so a request without an id yields a response without an id field). -/
theorem C5_response_id_echo (ctl : Controller) (cmd : QmpCommand)
    (if_fd : Option Int) :
    ((qmp_command_exec ctl cmd if_fd).1).id = cmd.cmdId ∧
    lookupField (responseFields (qmp_command_exec ctl cmd if_fd).1) ("id")
      = cmd.cmdId.map (fun n => JValue.num (Int.ofNat n)) := by
  have hid : ((qmp_command_exec ctl cmd if_fd).1).id = cmd.cmdId := by
    cases cmd <;> rfl
  exact ⟨hid, by rw [responseFields_id, hid]⟩

/-- Claim C7 (counterexample): the claim says a netdev_add whose fds name is
neither a registered descriptor (the table is empty) nor parsable as an
integer makes the control channel return a GenericError response; but while
netdev_add itself returns false, qmp_command_exec discards that boolean and
serializes the empty success response, with a return key and no error key. -/
theorem C7_netdev_add_counterexample :
    LightMachine.netdev_add [] true ("net0") none (some ("unknown")) = false ∧
    serializeResponse
        (qmp_command_exec sampleController
          (QmpCommand.netdev_add ("net0") none (some ("unknown")) none)
          none).1
      = JValue.obj [(("return"), JValue.obj [])] := ⟨rfl, rfl⟩

/-- Claim C7 (amended): for every netdev_add command whose fds argument
names a descriptor that was never registered and does not parse as an
integer, the netdev_add handler returns false (no config is registered),
but qmp_command_exec ignores that boolean: the response sent to the client
is the empty success response carrying the request id, with no error field,
not a GenericError. -/
theorem C7_netdev_add_amended (tbl : List (String × Int)) (busOk : Bool)
    (devId : String) (if_name : Option String) (fdsStr : String)
    (ctl : Controller) (reqId : Option Nat) (if_fd : Option Int)
    (h1 : LightMachine.getFd tbl (LightMachine.extractFdName fdsStr) = none)
    (h2 : LightMachine.parseI32 (LightMachine.extractFdName fdsStr) = none) :
    LightMachine.netdev_add tbl busOk devId if_name (some fdsStr) = false ∧
    (qmp_command_exec ctl
        (QmpCommand.netdev_add devId if_name (some fdsStr) reqId) if_fd).1
      = changeId createEmptyResponse reqId ∧
    ((qmp_command_exec ctl
        (QmpCommand.netdev_add devId if_name (some fdsStr) reqId) if_fd).1).error
      = none := by
  refine ⟨?_, rfl, rfl⟩
  rw [LightMachine.netdev_add, LightMachine.netdev_add_cfg]
  rw [h1, h2]

/-- Claim C7 (witness): the amended theorem applied to the empty descriptor
table and the unregistered, non-numeric name unknown. -/
theorem C7_netdev_add_witness :
    LightMachine.getFd [] (LightMachine.extractFdName ("unknown")) = none ∧
    LightMachine.parseI32 (LightMachine.extractFdName ("unknown")) = none ∧
    (LightMachine.netdev_add [] true ("net1") none (some ("unknown")) = false ∧
     (qmp_command_exec sampleController
         (QmpCommand.netdev_add ("net1") none (some ("unknown")) (some 7))
         none).1
       = changeId createEmptyResponse (some 7) ∧
     ((qmp_command_exec sampleController
         (QmpCommand.netdev_add ("net1") none (some ("unknown")) (some 7))
         none).1).error
       = none) :=
  ⟨rfl, rfl,
   C7_netdev_add_amended [] true ("net1") none ("unknown") sampleController
     (some 7) none rfl rfl⟩

end qmp

namespace LightMachine

/-- Claim C6: query_status is a function of the machine state cell alone:
Running yields singlestep false, running true, status running; Paused yields
singlestep false, running true, status paused; a machine still in the
Created state yields the default info with running false and status Created;
the three statuses serialize as the strings running, paused and Created. -/
theorem C6_query_status :
    query_status_info KvmVmState.Running
      = { singlestep := false, running := true,
          status := qmp.RunState.running } ∧
    query_status_info KvmVmState.Paused
      = { singlestep := false, running := true,
          status := qmp.RunState.paused } ∧
    query_status_info KvmVmState.Created
      = { singlestep := false, running := false,
          status := qmp.RunState.Created } ∧
    (qmp.RunState.running).toStr = ("running") ∧
    (qmp.RunState.paused).toStr = ("paused") ∧
    (qmp.RunState.Created).toStr = ("Created") ∧
    query_status KvmVmState.Created
      = qmp.createResponse
          (qmp.JValue.obj
            [(("running"), qmp.JValue.jbool false),
             (("singlestep"), qmp.JValue.jbool false),
             (("status"), qmp.JValue.str ("Created"))])
          none :=
  ⟨rfl, rfl, rfl, rfl, rfl, rfl, rfl⟩

/-- Claim C10 (counterexample): the claim says every port-I/O read at 0x61
stores 0x20 into the first output byte and returns true regardless of the
requested length; but with a zero-length buffer the source indexes data[0]
out of bounds (a Rust panic, modelled as none), so the call does not return
true. -/
theorem C10_pio_in_counterexample :
    pio_in (fun _ _ => none) 0x61 [] = none ∧
    (pio_in (fun _ _ => none) 0x61 []).map Prod.snd ≠ some true := by
  exact ⟨rfl, fun hcontra => Option.noConfusion hcontra⟩

/-- Claim C10 (amended): for every port-I/O read at 0x61 with at least one
output byte requested, pio_in stores 0x20 into the first output byte and
returns true without consulting the I/O address space (the result is the
same under any two oracles); with zero bytes requested the source panics
instead; every read at any other address is forwarded to the I/O address
space and returns true exactly when that read succeeds. -/
theorem C10_pio_in_amended (io io2 : Nat → Nat → Option (List Nat))
    (addr : Nat) (data : List Nat) :
    (addr = 0x61 → pio_in io addr data = pio_in io2 addr data) ∧
    (addr = 0x61 → data ≠ [] →
      pio_in io addr data = some (0x20 :: data.tail, true)) ∧
    (addr = 0x61 → data = [] → pio_in io addr data = none) ∧
    (addr ≠ 0x61 →
      (pio_in io addr data).map Prod.snd
        = some (io addr data.length).isSome) := by
  refine ⟨?_, ?_, ?_, ?_⟩
  · intro ha
    subst ha
    cases data <;> rfl
  · intro ha hne
    subst ha
    cases data with
    | nil => exact absurd rfl hne
    | cons b rest => rfl
  · intro ha hnil
    subst ha
    subst hnil
    rfl
  · intro ha
    rw [pio_in.eq_def, if_neg ha]
    cases io addr data.length <;> rfl

/-- Claim C10 (witness): the amended theorem applied to a one-byte read at
port 0x61 under the always-failing oracle: the byte 0x20 comes back with a
true result. -/
theorem C10_pio_in_witness :
    pio_in (fun _ _ => none) 0x61 [7] = some ([0x20], true) :=
  (C10_pio_in_amended (fun _ _ => none) (fun _ _ => none) 0x61 [7]).2.1 rfl
    (by decide)

end LightMachine
